import Mathlib

/-!
Shallow embedding of the MCP_Server_for_Confluence repository
(`confluence_tools.py`, `main.py`, `streamlit_app.py`) and proofs about it.

Remote Confluence calls are modelled by an oracle structure `Remote`; each
tool wrapper is a pure function that returns its textual result together
with the trace of remote calls it issued, so that "issues no remote call"
claims become statements about an empty trace.  Python truthiness of
`Optional[str]` arguments (`None` and `""` are falsy) is modelled by
`truthy`/`pyOrStr`.
-/

namespace ConfluenceMCP

/-- Outcome of one remote (atlassian) API call as seen through Python's
exception model: a normal value, an `ApiError` carrying an HTTP status and
text, or any other raised exception carrying its string rendering. -/
inductive RemoteResult (α : Type) where
  | ok (val : α)
  | apiError (status : Nat) (text : String)
  | exn (msg : String)
deriving DecidableEq

/-- The fields of a Confluence page dictionary that the wrappers access:
`page['title']`, `page['space']['key']`, `page['body']['storage']['value']`,
`page['_links']['webui']`. -/
structure Page where
  title : String
  spaceKey : String
  bodyValue : String
  webui : String
deriving DecidableEq

/-- One CQL search hit: `result['content']['title']` and `result['content']['id']`. -/
structure CqlItem where
  title : String
  id : String
deriving DecidableEq

/-- The CQL response dictionary: `results['results']`. -/
structure CqlResults where
  results : List CqlItem
deriving DecidableEq

/-- Fields of the dictionary returned by `confluence_client.create_page`:
`new_page['id']` and `new_page['_links']['webui']`. -/
structure NewPage where
  id : String
  webui : String
deriving DecidableEq

/-- Fields of one element of `get_all_pages_from_space`: `page['id']`, `page['title']`. -/
structure SpacePage where
  id : String
  title : String
deriving DecidableEq

/-- A record of one remote call issued by a wrapper, with the arguments
it was issued with. -/
inductive RemoteCall where
  | getPageById (pageId : String) (expand : Option String)
  | cql (query : String) (limit : Nat)
  | createPage (space title body : String) (parentId : Option String)
  | removePage (pageId : String)
  | updatePage (pageId title body : String)
  | addComment (pageId body : String)
  | createSpace (key name : String)
  | getAllPagesFromSpace (spaceKey : String) (start limit : Nat) (expand : String)
deriving DecidableEq

/-- Deterministic oracle for the remote Confluence client: what each remote
call would return in the current remote state. -/
structure Remote where
  getPageById : String → Option String → RemoteResult Page
  cql : String → Nat → RemoteResult CqlResults
  createPage : String → String → String → Option String → RemoteResult NewPage
  removePage : String → RemoteResult Unit
  updatePage : String → String → String → RemoteResult Unit
  addComment : String → String → RemoteResult Unit
  createSpace : String → String → RemoteResult Unit
  getAllPagesFromSpace : String → Nat → Nat → String → RemoteResult (List SpacePage)

/-- Python truthiness of an `Optional[str]`: `None` and `""` are falsy. -/
def truthy : Option String → Bool
  | none => false
  | some s => s != ""

/-- Python `x if x else d` for an `Optional[str]` `x`. -/
def pyOrStr (x : Option String) (d : String) : String :=
  if truthy x then x.getD "" else d

/-- The fixed message every wrapper returns when the module-level client
handle was never constructed (`confluence_client` is `None`). -/
def notInitializedMsg : String :=
  "Error: Confluence client is not initialized. Check your .env configuration."

/-- Embedding of `get_page_details` (confluence_tools.py lines 24-45). -/
def get_page_details (client : Option Remote) (page_id : String) :
    String × List RemoteCall :=
  match client with
  | none => (notInitializedMsg, [])
  | some r =>
    let tr := [RemoteCall.getPageById page_id (some "body.storage,space")]
    match r.getPageById page_id (some "body.storage,space") with
    | RemoteResult.ok page =>
      ("Successfully retrieved Confluence page details.\nTitle: " ++ page.title ++
        "\nSpace: " ++ page.spaceKey ++ "\nContent:\n" ++ page.bodyValue, tr)
    | RemoteResult.apiError st tx =>
      if st == 404 then
        ("Error: Page with ID '" ++ page_id ++
          "' was not found. Please provide a correct page ID.", tr)
      else
        ("Error: An API error occurred while retrieving page '" ++ page_id ++
          "'. Details: " ++ tx, tr)
    | RemoteResult.exn m =>
      ("An unexpected error occurred while retrieving page '" ++ page_id ++ "': " ++ m, tr)

/-- The CQL filter expression built by `search_pages` (lines 58-67): the
parts list starts with `type = "page"` and appends a text clause and/or a
space clause for each truthy argument. -/
def searchCqlParts (query space_key : Option String) : List String :=
  let parts := ["type = \"page\""]
  let parts := if truthy query then parts ++ ["text ~ \"" ++ query.getD "" ++ "\""] else parts
  if truthy space_key then parts ++ ["space = \"" ++ space_key.getD "" ++ "\""] else parts

/-- Embedding of `search_pages` (confluence_tools.py lines 47-81).  Note the
only except clause there is a generic `except Exception`, so an `ApiError`
is reported through the generic unexpected-error message as well. -/
def search_pages (client : Option Remote) (query space_key : Option String) :
    String × List RemoteCall :=
  match client with
  | none => (notInitializedMsg, [])
  | some r =>
    let cql_parts := searchCqlParts query space_key
    if cql_parts.length == 1 then
      ("Error: You must provide either a search query or a space key.", [])
    else
      let cqlStr := " and ".intercalate cql_parts
      let tr := [RemoteCall.cql cqlStr 50]
      match r.cql cqlStr 50 with
      | RemoteResult.ok res =>
        if res.results.isEmpty then
          ("No pages found for the search criteria.", tr)
        else
          (res.results.foldl
            (fun acc it => acc ++ "  - Title: " ++ it.title ++ ", ID: " ++ it.id ++ "\n")
            "Found the following pages:\n", tr)
      | RemoteResult.apiError _ tx =>
        ("An unexpected error occurred while searching for pages: " ++ tx, tr)
      | RemoteResult.exn m =>
        ("An unexpected error occurred while searching for pages: " ++ m, tr)

/-- Embedding of `create_page` (confluence_tools.py lines 83-108).
`server` is the value of the `CONFLUENCE_SERVER` environment variable. -/
def create_page (server : String) (client : Option Remote)
    (space_key title body : String) (parent_page_id : Option String) :
    String × List RemoteCall :=
  match client with
  | none => (notInitializedMsg, [])
  | some r =>
    let tr := [RemoteCall.createPage space_key title body parent_page_id]
    match r.createPage space_key title body parent_page_id with
    | RemoteResult.ok new_page =>
      ("Successfully created a new Confluence page! Title: '" ++ title ++
        "', ID: '" ++ new_page.id ++ "', URL: " ++ server ++ new_page.webui, tr)
    | RemoteResult.apiError st tx =>
      if st == 404 then
        ("Error: Space with key '" ++ space_key ++
          "' was not found. Please provide a correct space key.", tr)
      else
        ("Error: An API error occurred while creating page. Details: " ++ tx, tr)
    | RemoteResult.exn m =>
      ("An unexpected error occurred while creating a page: " ++ m, tr)

/-- Embedding of `delete_page` (confluence_tools.py lines 110-127). -/
def delete_page (client : Option Remote) (page_id : String) :
    String × List RemoteCall :=
  match client with
  | none => (notInitializedMsg, [])
  | some r =>
    let tr := [RemoteCall.removePage page_id]
    match r.removePage page_id with
    | RemoteResult.ok _ =>
      ("Successfully deleted page with ID '" ++ page_id ++ "'.", tr)
    | RemoteResult.apiError st tx =>
      if st == 404 then
        ("Error: Page with ID '" ++ page_id ++
          "' was not found. Please provide a correct page ID.", tr)
      else
        ("Error: An API error occurred while deleting page '" ++ page_id ++
          "'. Details: " ++ tx, tr)
    | RemoteResult.exn m =>
      ("An unexpected error occurred while deleting page '" ++ page_id ++ "': " ++ m, tr)

/-- The try-block of `update_page` (confluence_tools.py lines 140-158):
fetch title and space, fetch the current body, write back the merged
title/body, then fetch the web link for the success message.  Returns the
value produced by the try-block (or the pending exception) together with
the trace of remote calls issued before control left the block. -/
def update_try (server : String) (r : Remote) (page_id : String)
    (title body : Option String) : RemoteResult String × List RemoteCall :=
  let c1 := [RemoteCall.getPageById page_id none]
  match r.getPageById page_id none with
  | RemoteResult.apiError st tx => (RemoteResult.apiError st tx, c1)
  | RemoteResult.exn m => (RemoteResult.exn m, c1)
  | RemoteResult.ok page =>
    let current_title := page.title
    let c2 := c1 ++ [RemoteCall.getPageById page_id (some "body.storage")]
    match r.getPageById page_id (some "body.storage") with
    | RemoteResult.apiError st tx => (RemoteResult.apiError st tx, c2)
    | RemoteResult.exn m => (RemoteResult.exn m, c2)
    | RemoteResult.ok page2 =>
      let current_body := page2.bodyValue
      let updated_title := pyOrStr title current_title
      let updated_body := pyOrStr body current_body
      let c3 := c2 ++ [RemoteCall.updatePage page_id updated_title updated_body]
      match r.updatePage page_id updated_title updated_body with
      | RemoteResult.apiError st tx => (RemoteResult.apiError st tx, c3)
      | RemoteResult.exn m => (RemoteResult.exn m, c3)
      | RemoteResult.ok _ =>
        let c4 := c3 ++ [RemoteCall.getPageById page_id none]
        match r.getPageById page_id none with
        | RemoteResult.apiError st tx => (RemoteResult.apiError st tx, c4)
        | RemoteResult.exn m => (RemoteResult.exn m, c4)
        | RemoteResult.ok page3 =>
          (RemoteResult.ok ("Successfully updated page with ID '" ++ page_id ++
            "'. New Title: '" ++ updated_title ++ "'. URL: " ++ server ++ page3.webui), c4)

/-- Embedding of `update_page` (confluence_tools.py lines 129-164): client
check, then usage check (`if not (title or body)`), then the try-block with
its `ApiError`/`Exception` handlers. -/
def update_page (server : String) (client : Option Remote) (page_id : String)
    (title body : Option String) : String × List RemoteCall :=
  match client with
  | none => (notInitializedMsg, [])
  | some r =>
    if truthy title || truthy body then
      match update_try server r page_id title body with
      | (RemoteResult.ok msg, tr) => (msg, tr)
      | (RemoteResult.apiError st tx, tr) =>
        if st == 404 then
          ("Error: Page with ID '" ++ page_id ++
            "' was not found. Please provide a correct page ID.", tr)
        else
          ("Error: An API error occurred while updating page '" ++ page_id ++
            "'. Details: " ++ tx, tr)
      | (RemoteResult.exn m, tr) =>
        ("An unexpected error occurred while updating page '" ++ page_id ++ "': " ++ m, tr)
    else
      ("Error: You must provide either a new title or a new body to update the page.", [])

/-- The try-block of `add_comment_to_page` (confluence_tools.py lines 175-182):
post the wrapped comment, then fetch the web link for the success message. -/
def add_comment_try (server : String) (r : Remote) (page_id comment_body : String) :
    RemoteResult String × List RemoteCall :=
  let formatted := "<div>" ++ comment_body ++ "</div>"
  let c1 := [RemoteCall.addComment page_id formatted]
  match r.addComment page_id formatted with
  | RemoteResult.apiError st tx => (RemoteResult.apiError st tx, c1)
  | RemoteResult.exn m => (RemoteResult.exn m, c1)
  | RemoteResult.ok _ =>
    let c2 := c1 ++ [RemoteCall.getPageById page_id none]
    match r.getPageById page_id none with
    | RemoteResult.apiError st tx => (RemoteResult.apiError st tx, c2)
    | RemoteResult.exn m => (RemoteResult.exn m, c2)
    | RemoteResult.ok page =>
      (RemoteResult.ok ("Successfully added a comment to page with ID '" ++ page_id ++
        "'. URL: " ++ server ++ page.webui), c2)

/-- Embedding of `add_comment_to_page` (confluence_tools.py lines 166-188). -/
def add_comment_to_page (server : String) (client : Option Remote)
    (page_id comment_body : String) : String × List RemoteCall :=
  match client with
  | none => (notInitializedMsg, [])
  | some r =>
    match add_comment_try server r page_id comment_body with
    | (RemoteResult.ok msg, tr) => (msg, tr)
    | (RemoteResult.apiError st tx, tr) =>
      if st == 404 then
        ("Error: Page with ID '" ++ page_id ++
          "' was not found. Please provide a correct page ID.", tr)
      else
        ("Error: An API error occurred while adding a comment to page '" ++ page_id ++
          "'. Details: " ++ tx, tr)
    | (RemoteResult.exn m, tr) =>
      ("An unexpected error occurred while adding a comment to page '" ++
        page_id ++ "': " ++ m, tr)

/-- Embedding of `create_space` (confluence_tools.py lines 190-207):
a 409 Conflict is mapped to the distinct already-exists message. -/
def create_space (client : Option Remote) (space_key space_name : String) :
    String × List RemoteCall :=
  match client with
  | none => (notInitializedMsg, [])
  | some r =>
    let tr := [RemoteCall.createSpace space_key space_name]
    match r.createSpace space_key space_name with
    | RemoteResult.ok _ =>
      ("Successfully created a new Confluence space with key '" ++ space_key ++
        "' and name '" ++ space_name ++ "'.", tr)
    | RemoteResult.apiError st tx =>
      if st == 409 then
        ("Error: A space with key '" ++ space_key ++
          "' already exists. Please choose a different key.", tr)
      else
        ("Error: An API error occurred while creating the space '" ++ space_key ++
          "'. Details: " ++ tx, tr)
    | RemoteResult.exn m =>
      ("An unexpected error occurred while creating the space '" ++ space_key ++ "': " ++ m, tr)

/-! Models of `main.py`. -/

/-- Outcome of a Python expression: a value, or a raised exception carrying
its `str(e)` rendering (the only thing the handlers below use). -/
inductive PyOutcome (α : Type) where
  | val (a : α)
  | exn (msg : String)
deriving DecidableEq

/-- Starlette renders an `HTTPException` via `__str__` as
`"{status_code}: {detail}"`; this is what `str(e)` yields in the
`except Exception` handler of `invoke_agent`. -/
def httpExceptionStr (status : Nat) (detail : String) : String :=
  toString status ++ ": " ++ detail

/-- The HTTP reply of `POST /invoke`: 200 with `{"response": ...}` on the
normal return, or the status/detail of the `HTTPException` that reached the
framework. -/
inductive InvokeReply where
  | success (response : String)
  | httpError (status : Nat) (detail : String)
deriving DecidableEq

/-- Embedding of `invoke_agent` (main.py lines 127-137).  `runCrew` is the
opaque behaviour of `run_crew` (a value, or a raised exception).  The body
is one try/except: inside the try, an empty prompt raises
`HTTPException(400, "Prompt cannot be empty.")`; the `except Exception`
clause catches every exception raised in the try-block — including that
`HTTPException`, which is a subclass of `Exception` — and raises
`HTTPException(500, str(e))`, which the framework turns into the reply. -/
def invoke_agent (runCrew : String → PyOutcome String) (prompt : String) : InvokeReply :=
  let tryResult : PyOutcome String :=
    if prompt == "" then
      PyOutcome.exn (httpExceptionStr 400 "Prompt cannot be empty.")
    else
      runCrew prompt
  match tryResult with
  | PyOutcome.val r => InvokeReply.success r
  | PyOutcome.exn m => InvokeReply.httpError 500 m

/-- One record of the `GET /context/pages/{space_key}` response
(main.py lines 181-187). -/
structure PageRec where
  type : String
  id : String
  title : String
  space_key : String
  url : String
deriving DecidableEq

/-- Embedding of `get_all_pages_in_space` (main.py lines 168-190).  The
result is the 200 JSON list, or the status/detail of the raised
`HTTPException`. -/
def get_all_pages_in_space (server : String) (client : Option Remote)
    (space_key : String) : Except (Nat × String) (List PageRec) :=
  match client with
  | none => Except.error (500, "Confluence client is not initialized.")
  | some r =>
    match r.getAllPagesFromSpace space_key 0 50 "history" with
    | RemoteResult.ok pages =>
      Except.ok (pages.map fun page =>
        { type := "page"
          id := page.id
          title := page.title
          space_key := space_key
          url := server ++ "/wiki/spaces/" ++ space_key ++ "/pages/" ++ page.id })
    | RemoteResult.apiError _ tx => Except.error (500, "Error retrieving pages: " ++ tx)
    | RemoteResult.exn m => Except.error (500, "Error retrieving pages: " ++ m)

/-!
Interleaving model of the lazy crew construction (main.py lines 36-123).

Each request thread runs the fragment of `run_crew` that performs
initialization: read the global `confluence_crew`; if it is `None`, enter
`_initialize_crew`, which acquires `crew_initialization_lock`, re-checks the
global, constructs the crew if still `None`, and releases the lock.  The
assignment `confluence_crew = Crew(...)` stores a reference to an already
fully-constructed object in a single atomic name binding, which the `build`
step mirrors by installing `{ complete := true }` in one transition.  The
model covers the successful construction path (the claim's setting, where
the LLM handle and crew construction succeed).
-/

/-- Program counter of one request thread through the initialization
fragment: `start` = the unlocked `confluence_crew is None` check in
`run_crew`; `acquire` = blocked entering `with crew_initialization_lock`;
`recheck` = the `confluence_crew is not None` check inside the lock;
`construct` = about to run `confluence_crew = Crew(...)`; `release` =
leaving the `with` block; `done` = past initialization. -/
inductive PC where
  | start
  | acquire
  | recheck
  | construct
  | release
  | done
deriving DecidableEq

/-- The constructed crew object; `complete` records whether the object the
global points at is fully constructed. -/
structure CrewObj where
  complete : Bool
deriving DecidableEq

/-- Shared state: the global `confluence_crew`, the lock (holder's thread
index, or `none`), each thread's program counter, and a history count of
how many times `Crew(...)` construction-and-assignment ran. -/
structure Sys where
  crew : Option CrewObj
  lock : Option Nat
  pcs : List PC
  constructions : Nat
deriving DecidableEq

/-- Interleaving semantics: one step of one thread. -/
inductive Step : Sys → Sys → Prop where
  | checkSome (s : Sys) (i : Nat) :
      s.pcs.get? i = some PC.start → s.crew.isSome = true →
      Step s { s with pcs := s.pcs.set i PC.done }
  | checkNone (s : Sys) (i : Nat) :
      s.pcs.get? i = some PC.start → s.crew = none →
      Step s { s with pcs := s.pcs.set i PC.acquire }
  | acq (s : Sys) (i : Nat) :
      s.pcs.get? i = some PC.acquire → s.lock = none →
      Step s { s with lock := some i, pcs := s.pcs.set i PC.recheck }
  | recheckSome (s : Sys) (i : Nat) :
      s.pcs.get? i = some PC.recheck → s.crew.isSome = true →
      Step s { s with pcs := s.pcs.set i PC.release }
  | recheckNone (s : Sys) (i : Nat) :
      s.pcs.get? i = some PC.recheck → s.crew = none →
      Step s { s with pcs := s.pcs.set i PC.construct }
  | build (s : Sys) (i : Nat) :
      s.pcs.get? i = some PC.construct →
      Step s { s with crew := some { complete := true },
                      constructions := s.constructions + 1,
                      pcs := s.pcs.set i PC.release }
  | rel (s : Sys) (i : Nat) :
      s.pcs.get? i = some PC.release → s.lock = some i →
      Step s { s with lock := none, pcs := s.pcs.set i PC.done }

/-- Initial state for `n` request threads arriving concurrently: no crew,
lock free, every thread at the unlocked check. -/
def initSys (n : Nat) : Sys :=
  { crew := none, lock := none, pcs := List.replicate n PC.start, constructions := 0 }

/-- Reachability under the interleaving semantics. -/
def Reachable (n : Nat) (s : Sys) : Prop :=
  Relation.ReflTransGen Step (initSys n) s

/-!
Model of the reply post-processing block of `streamlit_app.py`
(lines 77-99).  Python strings are modelled as `List Char`, with Python's
`str.split`, the `in` operator, `str.endswith` and `str.strip` defined
below with Python's semantics (non-overlapping leftmost split; strip of
surrounding whitespace).
-/

/-- Python `s.startswith(p)` on character lists. -/
def startsWithL : List Char → List Char → Bool
  | _, [] => true
  | [], _ :: _ => false
  | c :: cs, d :: ds => c == d && startsWithL cs ds

/-- Index of the leftmost occurrence of `sep` in `s` (`none` if `sep` does
not occur).  For the empty `sep` this is `some 0`; all separators used by
the app are non-empty. -/
def findOcc (sep : List Char) : List Char → Option Nat
  | [] => if sep.isEmpty then some 0 else none
  | c :: cs =>
    if startsWithL (c :: cs) sep then some 0
    else (findOcc sep cs).map (· + 1)

/-- Fuel-driven worker for `pySplit`: split off the leftmost occurrence of
`sep` and recurse on the remainder.  The fuel only bounds the number of
produced parts; `pySplit` supplies enough for any input. -/
def splitFuel (sep : List Char) : Nat → List Char → List (List Char)
  | 0, s => [s]
  | fuel + 1, s =>
    match findOcc sep s with
    | none => [s]
    | some i => s.take i :: splitFuel sep fuel (s.drop (i + sep.length))

/-- Python `s.split(sep)` for non-empty `sep`: non-overlapping leftmost
occurrences. -/
def pySplit (s sep : List Char) : List (List Char) :=
  splitFuel sep (s.length + 1) s

/-- Python `sep in s` (for non-empty `sep`): the split has more than one
part exactly when `sep` occurs in `s`. -/
def pyContains (s sep : List Char) : Bool :=
  (pySplit s sep).length != 1

/-- Python `s.endswith(p)`. -/
def pyEndsWith (s p : List Char) : Bool :=
  startsWithL s.reverse p.reverse

/-- The whitespace characters Python's `str.strip` removes. -/
def isPySpace (c : Char) : Bool :=
  c == ' ' || c == '\t' || c == '\n' || c == '\r' || c == '\x0b' || c == '\x0c'

/-- Python `s.strip()`: drop leading and trailing whitespace. -/
def pyStrip (s : List Char) : List Char :=
  ((s.dropWhile isPySpace).reverse.dropWhile isPySpace).reverse

/-- The content marker of streamlit_app.py line 79,
`"The page contains the text:"`. -/
def pageContentMarker : List Char :=
  "The page contains the text:".data

/-- The fixed marker list of streamlit_app.py line 89,
`[" with ID ", " and URL is ", ". atlassian.net"]`. -/
def url_keywords : List (List Char) :=
  [" with ID ".data, " and URL is ".data, ". atlassian.net".data]

/-- The trailing-period handling of lines 94-95: drop a final `'.'` from the
truncated summary. -/
def stripDotted (b : List Char) : List Char :=
  if pyEndsWith b ['.'] then b.dropLast else b

/-- The `for keyword in url_keywords` loop of lines 90-96: at the first
keyword (in list order) contained in `before_content`, truncate at that
keyword, drop a trailing period, and break; otherwise leave it unchanged. -/
def cleanBefore : List (List Char) → List Char → List Char
  | [], bc => bc
  | k :: ks, bc =>
    if pyContains bc k then stripDotted ((pySplit bc k).headD [])
    else cleanBefore ks bc

/-- Embedding of the post-processing block (streamlit_app.py lines 77-99):
split the agent output on the content marker (keeping `parts[0]` and
`marker + parts[1]` when the marker occurs), clean the summary part with
the keyword loop, then reconstruct and `strip()`. -/
def postprocess (agent_output : List Char) : List Char :=
  let split :=
    if pyContains agent_output pageContentMarker then
      let parts := pySplit agent_output pageContentMarker
      (parts.headD [], pageContentMarker ++ (parts.get? 1).getD [])
    else
      (agent_output, [])
  pyStrip (cleanBefore url_keywords split.1 ++ split.2)

/-! Invariant development for the initialization interleaving model. -/

/-- Program counters inside the lock-protected critical section. -/
def inCrit : PC → Bool
  | PC.recheck => true
  | PC.construct => true
  | PC.release => true
  | _ => false

/-- Inductive invariant of the initialization protocol for `n` threads. -/
structure Inv (n : Nat) (s : Sys) : Prop where
  lenEq : s.pcs.length = n
  lockHolder : ∀ i pc, s.pcs.get? i = some pc → inCrit pc = true → s.lock = some i
  crewComplete : ∀ c, s.crew = some c → c.complete = true
  constructNone : ∀ i, s.pcs.get? i = some PC.construct → s.crew = none
  releaseSome : ∀ i, s.pcs.get? i = some PC.release → s.crew.isSome = true
  doneSome : ∀ i, s.pcs.get? i = some PC.done → s.crew.isSome = true
  crewCount : (s.crew = none ∧ s.constructions = 0) ∨
    (s.crew.isSome = true ∧ s.constructions = 1)

theorem get?_some_lt {α : Type} {l : List α} {i : Nat} {a : α}
    (h : l.get? i = some a) : i < l.length := by
  rcases List.get?_eq_some.mp h with ⟨hlt, _⟩
  exact hlt

theorem get?_set_self {α : Type} (l : List α) (i : Nat) (b : α)
    (h : i < l.length) : (l.set i b).get? i = some b :=
  List.get?_set_eq_of_lt b h

theorem pcs_set_cases {l : List PC} {i j : Nat} {pc newpc : PC}
    (hlen : i < l.length) (h : (l.set i newpc).get? j = some pc) :
    (j = i ∧ pc = newpc) ∨ (j ≠ i ∧ l.get? j = some pc) := by
  by_cases hji : j = i
  · subst hji
    rw [get?_set_self l j newpc hlen] at h
    injection h with h'
    exact Or.inl ⟨rfl, h'.symm⟩
  · right
    refine ⟨hji, ?_⟩
    rw [List.get?_set_ne newpc l (fun hij => hji hij.symm)] at h
    exact h

theorem inv_init (n : Nat) : Inv n (initSys n) := by
  constructor
  · exact List.length_replicate n PC.start
  · intro i pc h hc
    have hmem := List.get?_mem h
    have := (List.mem_replicate.mp hmem).2
    subst this
    simp [inCrit] at hc
  · intro c h
    simp [initSys] at h
  · intro i h
    have hmem := List.get?_mem h
    have := (List.mem_replicate.mp hmem).2
    cases this
  · intro i h
    have hmem := List.get?_mem h
    have := (List.mem_replicate.mp hmem).2
    cases this
  · intro i h
    have hmem := List.get?_mem h
    have := (List.mem_replicate.mp hmem).2
    cases this
  · exact Or.inl ⟨rfl, rfl⟩

theorem inv_step {n : Nat} {s s' : Sys} (inv : Inv n s) (hstep : Step s s') :
    Inv n s' := by
  cases hstep with
  | checkSome i hpc hcrew =>
    have hlt : i < s.pcs.length := get?_some_lt hpc
    refine ⟨?_, ?_, inv.crewComplete, ?_, ?_, ?_, inv.crewCount⟩
    · rw [List.length_set]; exact inv.lenEq
    · intro j pc h hc
      rcases pcs_set_cases hlt h with ⟨_, hpc'⟩ | ⟨_, hj⟩
      · subst hpc'; simp [inCrit] at hc
      · exact inv.lockHolder j pc hj hc
    · intro j h
      rcases pcs_set_cases hlt h with ⟨_, hpc'⟩ | ⟨_, hj⟩
      · cases hpc'
      · exact inv.constructNone j hj
    · intro j h
      rcases pcs_set_cases hlt h with ⟨_, hpc'⟩ | ⟨_, hj⟩
      · cases hpc'
      · exact inv.releaseSome j hj
    · intro j h
      rcases pcs_set_cases hlt h with ⟨_, _⟩ | ⟨_, hj⟩
      · exact hcrew
      · exact inv.doneSome j hj
  | checkNone i hpc hcrew =>
    have hlt : i < s.pcs.length := get?_some_lt hpc
    refine ⟨?_, ?_, inv.crewComplete, ?_, ?_, ?_, inv.crewCount⟩
    · rw [List.length_set]; exact inv.lenEq
    · intro j pc h hc
      rcases pcs_set_cases hlt h with ⟨_, hpc'⟩ | ⟨_, hj⟩
      · subst hpc'; simp [inCrit] at hc
      · exact inv.lockHolder j pc hj hc
    · intro j h
      rcases pcs_set_cases hlt h with ⟨_, hpc'⟩ | ⟨_, hj⟩
      · cases hpc'
      · exact inv.constructNone j hj
    · intro j h
      rcases pcs_set_cases hlt h with ⟨_, hpc'⟩ | ⟨_, hj⟩
      · cases hpc'
      · exact inv.releaseSome j hj
    · intro j h
      rcases pcs_set_cases hlt h with ⟨_, hpc'⟩ | ⟨_, hj⟩
      · cases hpc'
      · exact inv.doneSome j hj
  | acq i hpc hlock =>
    have hlt : i < s.pcs.length := get?_some_lt hpc
    refine ⟨?_, ?_, inv.crewComplete, ?_, ?_, ?_, inv.crewCount⟩
    · rw [List.length_set]; exact inv.lenEq
    · intro j pc h hc
      rcases pcs_set_cases hlt h with ⟨hj, _⟩ | ⟨_, hj⟩
      · subst hj; rfl
      · exact absurd (inv.lockHolder j pc hj hc) (by rw [hlock]; intro h'; cases h')
    · intro j h
      rcases pcs_set_cases hlt h with ⟨_, hpc'⟩ | ⟨_, hj⟩
      · cases hpc'
      · exact inv.constructNone j hj
    · intro j h
      rcases pcs_set_cases hlt h with ⟨_, hpc'⟩ | ⟨_, hj⟩
      · cases hpc'
      · exact inv.releaseSome j hj
    · intro j h
      rcases pcs_set_cases hlt h with ⟨_, hpc'⟩ | ⟨_, hj⟩
      · cases hpc'
      · exact inv.doneSome j hj
  | recheckSome i hpc hcrew =>
    have hlt : i < s.pcs.length := get?_some_lt hpc
    have hlock : s.lock = some i := inv.lockHolder i PC.recheck hpc rfl
    refine ⟨?_, ?_, inv.crewComplete, ?_, ?_, ?_, inv.crewCount⟩
    · rw [List.length_set]; exact inv.lenEq
    · intro j pc h hc
      rcases pcs_set_cases hlt h with ⟨hj, _⟩ | ⟨_, hj⟩
      · subst hj; exact hlock
      · exact inv.lockHolder j pc hj hc
    · intro j h
      rcases pcs_set_cases hlt h with ⟨_, hpc'⟩ | ⟨_, hj⟩
      · cases hpc'
      · exact inv.constructNone j hj
    · intro j h
      rcases pcs_set_cases hlt h with ⟨_, _⟩ | ⟨_, hj⟩
      · exact hcrew
      · exact inv.releaseSome j hj
    · intro j h
      rcases pcs_set_cases hlt h with ⟨_, hpc'⟩ | ⟨_, hj⟩
      · cases hpc'
      · exact inv.doneSome j hj
  | recheckNone i hpc hcrew =>
    have hlt : i < s.pcs.length := get?_some_lt hpc
    have hlock : s.lock = some i := inv.lockHolder i PC.recheck hpc rfl
    refine ⟨?_, ?_, inv.crewComplete, ?_, ?_, ?_, inv.crewCount⟩
    · rw [List.length_set]; exact inv.lenEq
    · intro j pc h hc
      rcases pcs_set_cases hlt h with ⟨hj, _⟩ | ⟨_, hj⟩
      · subst hj; exact hlock
      · exact inv.lockHolder j pc hj hc
    · intro j h
      exact hcrew
    · intro j h
      rcases pcs_set_cases hlt h with ⟨_, hpc'⟩ | ⟨_, hj⟩
      · cases hpc'
      · exact inv.releaseSome j hj
    · intro j h
      rcases pcs_set_cases hlt h with ⟨_, hpc'⟩ | ⟨_, hj⟩
      · cases hpc'
      · exact inv.doneSome j hj
  | build i hpc =>
    have hlt : i < s.pcs.length := get?_some_lt hpc
    have hlock : s.lock = some i := inv.lockHolder i PC.construct hpc rfl
    have hcrew : s.crew = none := inv.constructNone i hpc
    refine ⟨?_, ?_, ?_, ?_, ?_, ?_, ?_⟩
    · rw [List.length_set]; exact inv.lenEq
    · intro j pc h hc
      rcases pcs_set_cases hlt h with ⟨hj, _⟩ | ⟨_, hj⟩
      · subst hj; exact hlock
      · exact inv.lockHolder j pc hj hc
    · intro c h
      cases h; rfl
    · intro j h
      rcases pcs_set_cases hlt h with ⟨_, hpc'⟩ | ⟨hne, hj⟩
      · cases hpc'
      · exact absurd ((inv.lockHolder j PC.construct hj rfl).symm.trans hlock)
          (fun h' => hne (Option.some.injEq _ _ |>.mp h'))
    · intro j h
      rfl
    · intro j h
      rfl
    · rcases inv.crewCount with ⟨_, hc0⟩ | ⟨hsome, _⟩
      · exact Or.inr ⟨rfl, by simp [hc0]⟩
      · rw [hcrew] at hsome; cases hsome
  | rel i hpc hlock =>
    have hlt : i < s.pcs.length := get?_some_lt hpc
    have hsome : s.crew.isSome = true := inv.releaseSome i hpc
    refine ⟨?_, ?_, inv.crewComplete, ?_, ?_, ?_, inv.crewCount⟩
    · rw [List.length_set]; exact inv.lenEq
    · intro j pc h hc
      rcases pcs_set_cases hlt h with ⟨_, hpc'⟩ | ⟨hne, hj⟩
      · subst hpc'; simp [inCrit] at hc
      · exact absurd ((inv.lockHolder j pc hj hc).symm.trans hlock)
          (fun h' => hne (Option.some.injEq _ _ |>.mp h'))
    · intro j h
      rcases pcs_set_cases hlt h with ⟨_, hpc'⟩ | ⟨_, hj⟩
      · cases hpc'
      · exact inv.constructNone j hj
    · intro j h
      rcases pcs_set_cases hlt h with ⟨_, hpc'⟩ | ⟨_, hj⟩
      · cases hpc'
      · exact inv.releaseSome j hj
    · intro j h
      rcases pcs_set_cases hlt h with ⟨_, _⟩ | ⟨_, hj⟩
      · exact hsome
      · exact inv.doneSome j hj

theorem reachable_inv {n : Nat} {s : Sys} (h : Reachable n s) : Inv n s := by
  induction h with
  | refl => exact inv_init n
  | tail _ hstep ih => exact inv_step ih hstep

/-- C2: in every interleaving of `n` concurrent first requests through the
lock-guarded lazy initialization, the crew is constructed at most once and
any state's installed crew is fully constructed; any thread that proceeded
past initialization (reached `done`) observes a fully constructed instance;
and once all threads are past initialization the crew was constructed
exactly once. -/
theorem crew_constructed_exactly_once (n : Nat) (s : Sys) (h : Reachable n s) :
    (∀ c, s.crew = some c → c.complete = true) ∧
    s.constructions ≤ 1 ∧
    (∀ i, s.pcs.get? i = some PC.done → ∃ c, s.crew = some c ∧ c.complete = true) ∧
    ((∀ pc ∈ s.pcs, pc = PC.done) → 0 < n → s.constructions = 1) := by
  have inv := reachable_inv h
  refine ⟨inv.crewComplete, ?_, ?_, ?_⟩
  · rcases inv.crewCount with ⟨_, h0⟩ | ⟨_, h1⟩ <;> omega
  · intro i hdone
    have hsome := inv.doneSome i hdone
    rcases Option.isSome_iff_exists.mp hsome with ⟨c, hc⟩
    exact ⟨c, hc, inv.crewComplete c hc⟩
  · intro halldone hn
    have hlen : 0 < s.pcs.length := by rw [inv.lenEq]; exact hn
    have h0 : s.pcs.get? 0 ≠ none := by
      intro hnone
      rw [List.get?_eq_none] at hnone
      omega
    rcases Option.ne_none_iff_exists'.mp h0 with ⟨pc, hpc⟩
    have hmem := List.get?_mem hpc
    have hpcdone := halldone pc hmem
    subst hpcdone
    have hsome := inv.doneSome 0 hpc
    rcases inv.crewCount with ⟨hnone, _⟩ | ⟨_, h1⟩
    · rw [hnone] at hsome; cases hsome
    · exact h1

theorem crew_constructed_exactly_once_witness :
    (∀ c, (Sys.mk (some (CrewObj.mk true)) none [PC.done, PC.done] 1).crew = some c →
      c.complete = true) ∧
    (Sys.mk (some (CrewObj.mk true)) none [PC.done, PC.done] 1).constructions ≤ 1 ∧
    (∀ i, (Sys.mk (some (CrewObj.mk true)) none [PC.done, PC.done] 1).pcs.get? i
        = some PC.done →
      ∃ c, (Sys.mk (some (CrewObj.mk true)) none [PC.done, PC.done] 1).crew = some c ∧
        c.complete = true) ∧
    ((∀ pc ∈ (Sys.mk (some (CrewObj.mk true)) none [PC.done, PC.done] 1).pcs,
        pc = PC.done) → 0 < 2 →
      (Sys.mk (some (CrewObj.mk true)) none [PC.done, PC.done] 1).constructions = 1) := by
  refine crew_constructed_exactly_once 2 _ ?_
  have h1 : Step (initSys 2) (Sys.mk none none [PC.acquire, PC.start] 0) :=
    Step.checkNone (initSys 2) 0 rfl rfl
  have h2 : Step (Sys.mk none none [PC.acquire, PC.start] 0)
      (Sys.mk none none [PC.acquire, PC.acquire] 0) :=
    Step.checkNone _ 1 rfl rfl
  have h3 : Step (Sys.mk none none [PC.acquire, PC.acquire] 0)
      (Sys.mk none (some 0) [PC.recheck, PC.acquire] 0) :=
    Step.acq _ 0 rfl rfl
  have h4 : Step (Sys.mk none (some 0) [PC.recheck, PC.acquire] 0)
      (Sys.mk none (some 0) [PC.construct, PC.acquire] 0) :=
    Step.recheckNone _ 0 rfl rfl
  have h5 : Step (Sys.mk none (some 0) [PC.construct, PC.acquire] 0)
      (Sys.mk (some (CrewObj.mk true)) (some 0) [PC.release, PC.acquire] 1) :=
    Step.build _ 0 rfl
  have h6 : Step (Sys.mk (some (CrewObj.mk true)) (some 0) [PC.release, PC.acquire] 1)
      (Sys.mk (some (CrewObj.mk true)) none [PC.done, PC.acquire] 1) :=
    Step.rel _ 0 rfl rfl
  have h7 : Step (Sys.mk (some (CrewObj.mk true)) none [PC.done, PC.acquire] 1)
      (Sys.mk (some (CrewObj.mk true)) (some 1) [PC.done, PC.recheck] 1) :=
    Step.acq _ 1 rfl rfl
  have h8 : Step (Sys.mk (some (CrewObj.mk true)) (some 1) [PC.done, PC.recheck] 1)
      (Sys.mk (some (CrewObj.mk true)) (some 1) [PC.done, PC.release] 1) :=
    Step.recheckSome _ 1 rfl rfl
  have h9 : Step (Sys.mk (some (CrewObj.mk true)) (some 1) [PC.done, PC.release] 1)
      (Sys.mk (some (CrewObj.mk true)) none [PC.done, PC.done] 1) :=
    Step.rel _ 1 rfl rfl
  exact Relation.ReflTransGen.tail (Relation.ReflTransGen.tail (Relation.ReflTransGen.tail
    (Relation.ReflTransGen.tail (Relation.ReflTransGen.tail (Relation.ReflTransGen.tail
      (Relation.ReflTransGen.tail (Relation.ReflTransGen.tail
        (Relation.ReflTransGen.single h1) h2) h3) h4) h5) h6) h7) h8) h9

/-! Concrete remotes used by the witnesses below. -/

/-- A remote on which every call succeeds, with fixed page data. -/
def sampleRemote : Remote where
  getPageById := fun _ _ =>
    RemoteResult.ok { title := "CurT", spaceKey := "SP", bodyValue := "CurB", webui := "/w" }
  cql := fun _ _ => RemoteResult.ok { results := [] }
  createPage := fun _ _ _ _ => RemoteResult.ok { id := "1", webui := "/w" }
  removePage := fun _ => RemoteResult.ok ()
  updatePage := fun _ _ _ => RemoteResult.ok ()
  addComment := fun _ _ => RemoteResult.ok ()
  createSpace := fun _ _ => RemoteResult.ok ()
  getAllPagesFromSpace := fun _ _ _ _ =>
    RemoteResult.ok [{ id := "101", title := "P1" }, { id := "102", title := "P2" }]

/-- A remote on which id-addressed calls fail with 404 and space creation
fails with 409. -/
def failingRemote : Remote where
  getPageById := fun _ _ => RemoteResult.apiError 404 "nf"
  cql := fun _ _ => RemoteResult.apiError 404 "nf"
  createPage := fun _ _ _ _ => RemoteResult.apiError 404 "nf"
  removePage := fun _ => RemoteResult.apiError 404 "nf"
  updatePage := fun _ _ _ => RemoteResult.apiError 404 "nf"
  addComment := fun _ _ => RemoteResult.apiError 404 "nf"
  createSpace := fun _ _ => RemoteResult.apiError 409 "dup"
  getAllPagesFromSpace := fun _ _ _ _ => RemoteResult.apiError 404 "nf"

/-- C1 (behaviour of the code at the spec's empty-prompt input): for every
behaviour of `run_crew`, `POST /invoke` with an empty prompt yields status
500, not 400 — the `HTTPException(400, "Prompt cannot be empty.")` raised
inside the try-block is caught by the `except Exception` clause (it is an
`Exception` subclass) and re-raised as `HTTPException(500, str(e))`, with
`str(e) = "400: Prompt cannot be empty."`. -/
theorem invoke_empty_prompt_returns_500 (runCrew : String → PyOutcome String) :
    invoke_agent runCrew "" = InvokeReply.httpError 500 "400: Prompt cannot be empty." :=
  rfl

/-- C4: when the client handle was never constructed (`client = none`),
every one of the seven wiki operations returns the fixed not-initialized
error string and issues no remote call (empty trace). -/
theorem disabled_client_returns_fixed_error
    (server page_id space_key title body space_name comment : String)
    (ot ob oq osk op : Option String) :
    get_page_details none page_id = (notInitializedMsg, []) ∧
    search_pages none oq osk = (notInitializedMsg, []) ∧
    create_page server none space_key title body op = (notInitializedMsg, []) ∧
    update_page server none page_id ot ob = (notInitializedMsg, []) ∧
    delete_page none page_id = (notInitializedMsg, []) ∧
    add_comment_to_page server none page_id comment = (notInitializedMsg, []) ∧
    create_space none space_key space_name = (notInitializedMsg, []) :=
  ⟨rfl, rfl, rfl, rfl, rfl, rfl, rfl⟩

/-- C6: with an operational client but neither a truthy new title nor a
truthy new body, `update_page` returns the usage-error message with an
empty trace — in particular before any remote fetch of page state. -/
theorem update_requires_title_or_body (server : String) (r : Remote)
    (page_id : String) (title body : Option String)
    (ht : truthy title = false) (hb : truthy body = false) :
    update_page server (some r) page_id title body
      = ("Error: You must provide either a new title or a new body to update the page.",
         []) := by
  simp [update_page, ht, hb]

theorem update_requires_title_or_body_witness :
    update_page "srv" (some sampleRemote) "9" none (some "")
      = ("Error: You must provide either a new title or a new body to update the page.",
         []) :=
  update_requires_title_or_body "srv" sampleRemote "9" none (some "") rfl (by decide)

/-- C5: with an operational client, `search_pages` with neither a truthy
query nor a truthy space key returns the usage-error message and issues no
remote call; with at least one truthy argument it issues exactly one remote
CQL query with the fixed result limit 50. -/
theorem search_requires_query_or_space (r : Remote) (query space_key : Option String) :
    (truthy query = false → truthy space_key = false →
      search_pages (some r) query space_key
        = ("Error: You must provide either a search query or a space key.", [])) ∧
    (truthy query = true ∨ truthy space_key = true →
      ∃ c, (search_pages (some r) query space_key).2 = [RemoteCall.cql c 50]) := by
  constructor
  · intro hq hsk
    simp [search_pages, searchCqlParts, hq, hsk]
  · intro h
    have hb : ((searchCqlParts query space_key).length == 1) = false := by
      rcases h with h | h
      · cases hsk : truthy space_key <;> simp [searchCqlParts, h, hsk]
      · cases hq : truthy query <;> simp [searchCqlParts, h, hq]
    refine ⟨" and ".intercalate (searchCqlParts query space_key), ?_⟩
    cases hc : r.cql (" and ".intercalate (searchCqlParts query space_key)) 50 with
    | ok res =>
      cases hres : res.results.isEmpty <;>
        simp [search_pages, hb, hc, hres]
    | apiError st tx => simp [search_pages, hb, hc]
    | exn m => simp [search_pages, hb, hc]

theorem search_requires_query_or_space_witness :
    search_pages (some sampleRemote) none none
      = ("Error: You must provide either a search query or a space key.", []) ∧
    ∃ c, (search_pages (some sampleRemote) (some "plan") none).2
      = [RemoteCall.cql c 50] :=
  ⟨(search_requires_query_or_space sampleRemote none none).1 rfl rfl,
   (search_requires_query_or_space sampleRemote (some "plan") none).2
     (Or.inl (by decide))⟩

/-- C3: with an operational client whose two fetches for the page succeed,
updating with only a non-empty new title issues a write-back whose body is
exactly the body fetched from the current page state, and updating with
only a non-empty new body issues a write-back whose title is exactly the
fetched current title. -/
theorem update_partial_preserves_untouched (server : String) (r : Remote)
    (page_id : String) (p1 p2 : Page)
    (h1 : r.getPageById page_id none = RemoteResult.ok p1)
    (h2 : r.getPageById page_id (some "body.storage") = RemoteResult.ok p2) :
    (∀ t0 : String, t0 ≠ "" →
      ∃ rest, (update_page server (some r) page_id (some t0) none).2
        = [RemoteCall.getPageById page_id none,
           RemoteCall.getPageById page_id (some "body.storage"),
           RemoteCall.updatePage page_id t0 p2.bodyValue] ++ rest) ∧
    (∀ b0 : String, b0 ≠ "" →
      ∃ rest, (update_page server (some r) page_id none (some b0)).2
        = [RemoteCall.getPageById page_id none,
           RemoteCall.getPageById page_id (some "body.storage"),
           RemoteCall.updatePage page_id p1.title b0] ++ rest) := by
  constructor
  · intro t0 ht0
    have htr : truthy (some t0) = true := by simp [truthy, ht0]
    cases hu : r.updatePage page_id t0 p2.bodyValue with
    | ok u =>
      exact ⟨[RemoteCall.getPageById page_id none],
        by simp [update_page, update_try, h1, h2, htr, hu, pyOrStr, truthy, ht0]⟩
    | apiError st tx =>
      refine ⟨[], ?_⟩
      simp [update_page, update_try, h1, h2, htr, hu, pyOrStr, truthy, ht0]
      split <;> rfl
    | exn m =>
      exact ⟨[], by simp [update_page, update_try, h1, h2, htr, hu, pyOrStr, truthy, ht0]⟩
  · intro b0 hb0
    have hbr : truthy (some b0) = true := by simp [truthy, hb0]
    cases hu : r.updatePage page_id p1.title b0 with
    | ok u =>
      exact ⟨[RemoteCall.getPageById page_id none],
        by simp [update_page, update_try, h1, h2, hbr, hu, pyOrStr, truthy, hb0]⟩
    | apiError st tx =>
      refine ⟨[], ?_⟩
      simp [update_page, update_try, h1, h2, hbr, hu, pyOrStr, truthy, hb0]
      split <;> rfl
    | exn m =>
      exact ⟨[], by simp [update_page, update_try, h1, h2, hbr, hu, pyOrStr, truthy, hb0]⟩

theorem update_partial_preserves_untouched_witness :
    (∃ rest, (update_page "srv" (some sampleRemote) "9" (some "NewT") none).2
      = [RemoteCall.getPageById "9" none,
         RemoteCall.getPageById "9" (some "body.storage"),
         RemoteCall.updatePage "9" "NewT"
           (Page.mk "CurT" "SP" "CurB" "/w").bodyValue] ++ rest) ∧
    (∃ rest, (update_page "srv" (some sampleRemote) "9" none (some "NewB")).2
      = [RemoteCall.getPageById "9" none,
         RemoteCall.getPageById "9" (some "body.storage"),
         RemoteCall.updatePage "9" (Page.mk "CurT" "SP" "CurB" "/w").title "NewB"] ++ rest) :=
  ⟨(update_partial_preserves_untouched "srv" sampleRemote "9"
      (Page.mk "CurT" "SP" "CurB" "/w") (Page.mk "CurT" "SP" "CurB" "/w") rfl rfl).1
      "NewT" (by decide),
   (update_partial_preserves_untouched "srv" sampleRemote "9"
      (Page.mk "CurT" "SP" "CurB" "/w") (Page.mk "CurT" "SP" "CurB" "/w") rfl rfl).2
      "NewB" (by decide)⟩

/-- C7: a remote 404 on the id-addressed operations (get, update, delete)
yields the distinct not-found message, which carries the offending page id
by construction (the id is concatenated into it); a remote 409 on space
creation yields the distinct already-exists message carrying the offending
key.  In the embedding every wrapper is total and returns a string for
every remote outcome, mirroring that no failure propagates as a raised
fault past the wrapper boundary. -/
theorem remote_404_and_409_messages (r : Remote)
    (server page_id space_key space_name : String) (title body : Option String) :
    (∀ tx, r.getPageById page_id (some "body.storage,space")
        = RemoteResult.apiError 404 tx →
      get_page_details (some r) page_id
        = ("Error: Page with ID '" ++ page_id ++
            "' was not found. Please provide a correct page ID.",
           [RemoteCall.getPageById page_id (some "body.storage,space")])) ∧
    (∀ tx, r.getPageById page_id none = RemoteResult.apiError 404 tx →
      (truthy title || truthy body) = true →
      update_page server (some r) page_id title body
        = ("Error: Page with ID '" ++ page_id ++
            "' was not found. Please provide a correct page ID.",
           [RemoteCall.getPageById page_id none])) ∧
    (∀ tx, r.removePage page_id = RemoteResult.apiError 404 tx →
      delete_page (some r) page_id
        = ("Error: Page with ID '" ++ page_id ++
            "' was not found. Please provide a correct page ID.",
           [RemoteCall.removePage page_id])) ∧
    (∀ tx, r.createSpace space_key space_name = RemoteResult.apiError 409 tx →
      create_space (some r) space_key space_name
        = ("Error: A space with key '" ++ space_key ++
            "' already exists. Please choose a different key.",
           [RemoteCall.createSpace space_key space_name])) := by
  refine ⟨?_, ?_, ?_, ?_⟩
  · intro tx h
    simp [get_page_details, h]
  · intro tx h htb
    simp [update_page, update_try, h, htb]
  · intro tx h
    simp [delete_page, h]
  · intro tx h
    simp [create_space, h]

theorem remote_404_and_409_messages_witness :
    get_page_details (some failingRemote) "77"
      = ("Error: Page with ID '" ++ "77" ++
          "' was not found. Please provide a correct page ID.",
         [RemoteCall.getPageById "77" (some "body.storage,space")]) ∧
    update_page "srv" (some failingRemote) "77" (some "T") none
      = ("Error: Page with ID '" ++ "77" ++
          "' was not found. Please provide a correct page ID.",
         [RemoteCall.getPageById "77" none]) ∧
    delete_page (some failingRemote) "77"
      = ("Error: Page with ID '" ++ "77" ++
          "' was not found. Please provide a correct page ID.",
         [RemoteCall.removePage "77"]) ∧
    create_space (some failingRemote) "KEY" "Name"
      = ("Error: A space with key '" ++ "KEY" ++
          "' already exists. Please choose a different key.",
         [RemoteCall.createSpace "KEY" "Name"]) :=
  ⟨(remote_404_and_409_messages failingRemote "srv" "77" "KEY" "Name"
      (some "T") none).1 "nf" rfl,
   (remote_404_and_409_messages failingRemote "srv" "77" "KEY" "Name"
      (some "T") none).2.1 "nf" rfl (by decide),
   (remote_404_and_409_messages failingRemote "srv" "77" "KEY" "Name"
      (some "T") none).2.2.1 "nf" rfl,
   (remote_404_and_409_messages failingRemote "srv" "77" "KEY" "Name"
      (some "T") none).2.2.2 "dup" rfl⟩

/-- C8: when the remote listing of a space's pages succeeds,
`GET /context/pages/{space_key}` returns exactly one record per remote
page, each of shape `{type:"page", id, title, space_key, url}` with `id`
and `title` taken from that page and `url` built as
`server ++ "/wiki/spaces/" ++ space_key ++ "/pages/" ++ id`. -/
theorem context_pages_records (server : String) (r : Remote) (space_key : String)
    (pages : List SpacePage)
    (h : r.getAllPagesFromSpace space_key 0 50 "history" = RemoteResult.ok pages) :
    ∃ recs : List PageRec,
      get_all_pages_in_space server (some r) space_key = Except.ok recs ∧
      recs.length = pages.length ∧
      ∀ i : Nat, recs.get? i = (pages.get? i).map (fun p =>
        { type := "page", id := p.id, title := p.title, space_key := space_key,
          url := server ++ "/wiki/spaces/" ++ space_key ++ "/pages/" ++ p.id }) := by
  refine ⟨pages.map (fun p =>
    { type := "page", id := p.id, title := p.title, space_key := space_key,
      url := server ++ "/wiki/spaces/" ++ space_key ++ "/pages/" ++ p.id }), ?_, ?_, ?_⟩
  · simp [get_all_pages_in_space, h]
  · exact List.length_map _ _
  · intro i
    exact List.get?_map _ _ _

theorem context_pages_records_witness :
    ∃ recs : List PageRec,
      get_all_pages_in_space "https://x" (some sampleRemote) "NB" = Except.ok recs ∧
      recs.length = [SpacePage.mk "101" "P1", SpacePage.mk "102" "P2"].length ∧
      ∀ i : Nat, recs.get? i
        = ([SpacePage.mk "101" "P1", SpacePage.mk "102" "P2"].get? i).map (fun p =>
          { type := "page", id := p.id, title := p.title, space_key := "NB",
            url := "https://x" ++ "/wiki/spaces/" ++ "NB" ++ "/pages/" ++ p.id }) :=
  context_pages_records "https://x" sampleRemote "NB"
    [SpacePage.mk "101" "P1", SpacePage.mk "102" "P2"] rfl

/-- C10: `update_page` treats an empty-string argument exactly as an absent
one — the call with `title = some ""` (resp. `body = some ""`) is
extensionally equal to the call with that argument `none`, so an empty-string
body with a non-empty title writes back the fetched current body; and empty
strings for both yield the usage-error message.  Hence this operation can
never set a title or body to the empty string. -/
theorem update_empty_string_args_treated_as_absent
    (server : String) (client : Option Remote) (page_id : String) (r : Remote) :
    (∀ body : Option String,
      update_page server client page_id (some "") body
        = update_page server client page_id none body) ∧
    (∀ title : Option String,
      update_page server client page_id title (some "")
        = update_page server client page_id title none) ∧
    update_page server (some r) page_id (some "") (some "")
      = ("Error: You must provide either a new title or a new body to update the page.",
         []) := by
  have hte : truthy (some "") = false := by decide
  refine ⟨?_, ?_, ?_⟩
  · intro body
    cases client with
    | none => rfl
    | some r' =>
      have htry : update_try server r' page_id (some "") body
          = update_try server r' page_id none body := by
        unfold update_try
        cases r'.getPageById page_id none with
        | apiError st tx => rfl
        | exn m => rfl
        | ok page =>
          cases r'.getPageById page_id (some "body.storage") with
          | apiError st tx => rfl
          | exn m => rfl
          | ok page2 => simp [pyOrStr, hte, truthy]
      simp only [update_page, hte, truthy, htry, bne_self_eq_false]
  · intro title
    cases client with
    | none => rfl
    | some r' =>
      have htry : update_try server r' page_id title (some "")
          = update_try server r' page_id title none := by
        unfold update_try
        cases r'.getPageById page_id none with
        | apiError st tx => rfl
        | exn m => rfl
        | ok page =>
          cases r'.getPageById page_id (some "body.storage") with
          | apiError st tx => rfl
          | exn m => rfl
          | ok page2 => simp [pyOrStr, hte, truthy]
      simp only [update_page, hte, truthy, htry, bne_self_eq_false, Bool.or_false]
  · simp [update_page, hte]

/-! Lemmas about the Python string split model. -/

theorem splitFuel_length_pos (sep : List Char) (n : Nat) (s : List Char) :
    1 ≤ (splitFuel sep n s).length := by
  cases n with
  | zero => simp [splitFuel]
  | succ n =>
    cases hocc : findOcc sep s with
    | none => simp [splitFuel, hocc]
    | some i => simp [splitFuel, hocc]

theorem pySplit_of_not_contains {s sep : List Char} (h : pyContains s sep = false) :
    pySplit s sep = [s] := by
  have hlen : (pySplit s sep).length = 1 := by
    simpa [pyContains, bne_eq_false_iff_eq] using h
  unfold pySplit at hlen ⊢
  cases hocc : findOcc sep s with
  | none => simp [splitFuel, hocc]
  | some i =>
    exfalso
    rw [show splitFuel sep (s.length + 1) s
        = s.take i :: splitFuel sep s.length (s.drop (i + sep.length)) from by
      simp [splitFuel, hocc]] at hlen
    have hp := splitFuel_length_pos sep s.length (s.drop (i + sep.length))
    rw [List.length_cons] at hlen
    omega

/-- C9 (amended): the presentation post-processing (i) when the content
marker splits the reply into summary `a` and remainder `b`, displays the
keyword-cleaned summary followed by the marker and `b`, whitespace-trimmed;
(ii) truncates the summary at the first keyword of the fixed list (in list
order) that occurs in it, dropping a trailing period; and (iii) when
neither the content marker nor any keyword of the fixed list occurs in the
reply, displays the reply with only surrounding whitespace stripped (the
final `strip()` — so not literally unmodified). -/
theorem postprocess_characterization :
    (∀ (s a b : List Char) (rest : List (List Char)), pySplit s pageContentMarker = a :: b :: rest →
      postprocess s = pyStrip (cleanBefore url_keywords a ++ (pageContentMarker ++ b))) ∧
    (∀ (bc k : List Char) (ks1 ks2 : List (List Char)),
      (∀ k1 ∈ ks1, pyContains bc k1 = false) → pyContains bc k = true →
      cleanBefore (ks1 ++ k :: ks2) bc = stripDotted ((pySplit bc k).headD [])) ∧
    (∀ s : List Char, pyContains s pageContentMarker = false →
      (∀ k ∈ url_keywords, pyContains s k = false) →
      postprocess s = pyStrip s) := by
  refine ⟨?_, ?_, ?_⟩
  · intro s a b rest h
    have hc : pyContains s pageContentMarker = true := by
      unfold pyContains
      rw [h]
      simp [bne_iff_ne]
    simp [postprocess, hc, h]
  · intro bc k ks1 ks2
    induction ks1 with
    | nil =>
      intro _ hk
      simp [cleanBefore, hk]
    | cons k1 ks ih =>
      intro hks1 hk
      have h1 : pyContains bc k1 = false := hks1 k1 (List.mem_cons_self _ _)
      simp only [List.cons_append, cleanBefore, h1, Bool.false_eq_true, if_false]
      exact ih (fun x hx => hks1 x (List.mem_cons_of_mem _ hx)) hk
  · intro s hm hks
    have h1 : pyContains s (" with ID ".data) = false := hks _ (by simp [url_keywords])
    have h2 : pyContains s (" and URL is ".data) = false := hks _ (by simp [url_keywords])
    have h3 : pyContains s (". atlassian.net".data) = false := hks _ (by simp [url_keywords])
    simp [postprocess, hm, url_keywords, cleanBefore, h1, h2, h3]

theorem postprocess_characterization_witness :
    postprocess "Ok. The page contains the text: B".data
      = pyStrip (cleanBefore url_keywords "Ok. ".data ++ (pageContentMarker ++ " B".data)) ∧
    cleanBefore ([] ++ " with ID ".data :: [" and URL is ".data]) "Done with ID 9".data
      = stripDotted ((pySplit "Done with ID 9".data " with ID ".data).headD []) ∧
    postprocess "All done".data = pyStrip "All done".data :=
  ⟨postprocess_characterization.1 "Ok. The page contains the text: B".data
      "Ok. ".data " B".data [] (by decide),
   postprocess_characterization.2.1 "Done with ID 9".data " with ID ".data []
      [" and URL is ".data] (by decide) (by decide),
   postprocess_characterization.2.2 "All done".data (by decide) (by decide)⟩

/-- C9 counterexample to the claim as stated: the reply consisting of
`" hi "` contains neither the content marker nor any keyword of the fixed
list, yet it is not displayed unmodified — the final `strip()` removes its
surrounding whitespace. -/
theorem postprocess_not_identity_on_plain_reply :
    pyContains " hi ".data pageContentMarker = false ∧
    (∀ k ∈ url_keywords, pyContains " hi ".data k = false) ∧
    postprocess " hi ".data ≠ " hi ".data := by decide

end ConfluenceMCP
